import Mathlib

/-!
SLIM image viewer: viewport arithmetic of `src/slim.c`.

A shallow embedding of the viewport code of `slim.c` (`clamp_offsets`,
`render_to_backbuffer`, `reset_view` and the event switch of `main`) and
theorems about it.

Modelling conventions.
* C `int` values are integers of `ℤ`; all quantities are assumed to stay in
  the range of `int`, so no wrap-around is modelled.
* C `double` values are rationals of `ℚ`, in two layers. In the exact layer
  (the definitions directly in `Slim`) a `double` operation returns the exact
  result and the literals `0.8`, `1.1`, `0.9`, `1.2`, `0.1`, `5.0` are `4/5`,
  `11/10`, `9/10`, `6/5`, `1/10`, `5`. In the binary64 layer (`Slim.Binary64`)
  every `double` operation and literal is rounded to the nearest binary64
  value, ties to even, as the hardware does. The statements on which rounding
  bears (C1, C6, C10) are settled in the binary64 layer.
* The cast `(int)x` of a `double` is truncation toward zero (`c_int`), and
  `int / int` is C division, which truncates toward zero (`Int.tdiv`).
* X11 and Imlib2 handles (`display`, `win`, `backbuffer`, `screen`, `img`)
  carry no arithmetic and are left out of the state; the cached scaled image
  is represented by the arguments of the call that created it.
-/

namespace Slim

/-- The cast `(int)x` of a C `double`: truncation toward zero. -/
def c_int (q : ℚ) : ℤ := if 0 ≤ q then ⌊q⌋ else ⌈q⌉

/-- Arguments of `imlib_create_cropped_scaled_image(src_x, src_y, src_w, src_h,
dest_w, dest_h)` together with the position `(dest_x, dest_y)` handed to
`imlib_render_image_on_drawable`. -/
structure crop_call where
  src_x : ℤ
  src_y : ℤ
  src_w : ℤ
  src_h : ℤ
  dest_x : ℤ
  dest_y : ℤ
  dest_w : ℤ
  dest_h : ℤ
deriving DecidableEq, Repr

/-- The arithmetic fields of `viewer_state_t` (lines 16-37). `cached_scaled`
is `none` for `NULL` and otherwise records the crop call that built the image. -/
structure viewer_state where
  cached_scaled : Option crop_call
  img_width : ℤ
  img_height : ℤ
  win_width : ℤ
  win_height : ℤ
  zoom : ℚ
  initial_zoom : ℚ
  offset_x : ℤ
  offset_y : ℤ
  dragging : ℤ
  last_drag_x : ℤ
  last_drag_y : ℤ
  cached_scaled_width : ℤ
  cached_scaled_height : ℤ
  needs_rescale : ℤ
deriving DecidableEq, Repr

/-! ## `clamp_offsets` (lines 60-82) -/

/-- Lines 68 and 115: `scaled_width = (int)(state->img_width * state->zoom)`. -/
def scaled_width (s : viewer_state) : ℤ := c_int ((s.img_width : ℚ) * s.zoom)

/-- Lines 69 and 116: `scaled_height = (int)(state->img_height * state->zoom)`. -/
def scaled_height (s : viewer_state) : ℤ := c_int ((s.img_height : ℚ) * s.zoom)

/-- Line 71: `max_offset_x = (int)(scaled_width * 0.8)`. -/
def max_offset_x (s : viewer_state) : ℤ := c_int ((scaled_width s : ℚ) * (4 / 5))

/-- Line 72: `max_offset_y = (int)(scaled_height * 0.8)`. -/
def max_offset_y (s : viewer_state) : ℤ := c_int ((scaled_height s : ℚ) * (4 / 5))

/-- Two consecutive statements `if (v > m) v = m; if (v < -m) v = -m;`
(lines 74-77 and 78-81). -/
def clamp_pair (v m : ℤ) : ℤ :=
  let v1 := if v > m then m else v
  if v1 < -m then -m else v1

/-- The function `clamp_offsets` (lines 60-82). -/
def clamp_offsets (s : viewer_state) : viewer_state :=
  { s with
    offset_x := clamp_pair s.offset_x (max_offset_x s)
    offset_y := clamp_pair s.offset_y (max_offset_y s) }

/-! ## `render_to_backbuffer` (lines 90-187) -/

/-- Line 118: `draw_x = (win_width - scaled_width) / 2 + offset_x`. -/
def draw_x (s : viewer_state) : ℤ :=
  Int.tdiv (s.win_width - scaled_width s) 2 + s.offset_x

/-- Line 119: `draw_y = (win_height - scaled_height) / 2 + offset_y`. -/
def draw_y (s : viewer_state) : ℤ :=
  Int.tdiv (s.win_height - scaled_height s) 2 + s.offset_y

/-- The locals `src_x, src_y, src_w, src_h, dest_x, dest_y` of
`render_to_backbuffer`. -/
structure clip_locals where
  src_x : ℤ
  src_y : ℤ
  src_w : ℤ
  src_h : ℤ
  dest_x : ℤ
  dest_y : ℤ
deriving DecidableEq, Repr

/-- Lines 121-151: the values of the locals just before line 154. -/
def clip_lines_121_151 (s : viewer_state) : clip_locals :=
  let src_x : ℤ := if draw_x s < 0 then c_int (((-draw_x s : ℤ) : ℚ) / s.zoom) else 0
  let dest_x : ℤ := if draw_x s < 0 then 0 else draw_x s
  let src_y : ℤ := if draw_y s < 0 then c_int (((-draw_y s : ℤ) : ℚ) / s.zoom) else 0
  let dest_y : ℤ := if draw_y s < 0 then 0 else draw_y s
  let src_w : ℤ :=
    if draw_x s + scaled_width s > s.win_width then
      s.img_width - src_x -
        c_int ((((draw_x s + scaled_width s) - s.win_width : ℤ) : ℚ) / s.zoom)
    else s.img_width - src_x
  let src_h : ℤ :=
    if draw_y s + scaled_height s > s.win_height then
      s.img_height - src_y -
        c_int ((((draw_y s + scaled_height s) - s.win_height : ℤ) : ℚ) / s.zoom)
    else s.img_height - src_y
  { src_x := src_x, src_y := src_y, src_w := src_w, src_h := src_h,
    dest_x := dest_x, dest_y := dest_y }

/-- Lines 154-157: the two lower clamps `if (src_x < 0) src_x = 0;` and
`if (src_y < 0) src_y = 0;`. -/
def clip_lines_154_157 (l : clip_locals) : clip_locals :=
  { l with
    src_x := if l.src_x < 0 then 0 else l.src_x
    src_y := if l.src_y < 0 then 0 else l.src_y }

/-- Lines 158-163: the three early returns; `true` when the function returns
without cropping. -/
def clip_lines_158_163 (s : viewer_state) (l : clip_locals) : Bool :=
  decide (l.src_x ≥ s.img_width) || decide (l.src_y ≥ s.img_height) ||
    decide (l.src_w ≤ 0 ∨ l.src_h ≤ 0)

/-- Lines 164-167: the two upper clamps on `src_w` and `src_h`. -/
def clip_lines_164_167 (s : viewer_state) (l : clip_locals) : clip_locals :=
  { l with
    src_w := if l.src_x + l.src_w > s.img_width then s.img_width - l.src_x else l.src_w
    src_h := if l.src_y + l.src_h > s.img_height then s.img_height - l.src_y else l.src_h }

/-- Lines 169-170 and the call of lines 179-186: the crop call built from the
final locals, `dest_w = (int)(src_w * zoom)`, `dest_h = (int)(src_h * zoom)`. -/
def crop_of_locals (s : viewer_state) (l : clip_locals) : crop_call :=
  { src_x := l.src_x, src_y := l.src_y, src_w := l.src_w, src_h := l.src_h,
    dest_x := l.dest_x, dest_y := l.dest_y,
    dest_w := c_int ((l.src_w : ℚ) * s.zoom),
    dest_h := c_int ((l.src_h : ℚ) * s.zoom) }

/-- Lines 115-170 of `render_to_backbuffer`: `none` when the function takes one
of the early returns of lines 158-163, otherwise the crop call it performs. -/
def render_clip (s : viewer_state) : Option crop_call :=
  let l := clip_lines_154_157 (clip_lines_121_151 s)
  if clip_lines_158_163 s l then none
  else some (crop_of_locals s (clip_lines_164_167 s l))

/-- The clip computation with the four clamp statements of lines 154-157 and
164-167 removed (the variant compared with `render_clip`). -/
def render_clip_no_clamps (s : viewer_state) : Option crop_call :=
  let l := clip_lines_121_151 s
  if clip_lines_158_163 s l then none
  else some (crop_of_locals s l)

/-- The function `render_to_backbuffer` (lines 90-187) on the state: an early
return leaves the state untouched, otherwise the cache is rebuilt
(lines 173-183). -/
def render_to_backbuffer (s : viewer_state) : viewer_state :=
  match render_clip s with
  | none => s
  | some c =>
    { s with
      cached_scaled := some c
      cached_scaled_width := c.dest_w
      cached_scaled_height := c.dest_h
      needs_rescale := 0 }

/-! ## `reset_view` (lines 208-221) -/

/-- The function `reset_view` (lines 208-221). -/
def reset_view (s : viewer_state) : viewer_state :=
  let scale_w : ℚ := (s.win_width : ℚ) / (s.img_width : ℚ)
  let scale_h : ℚ := (s.win_height : ℚ) / (s.img_height : ℚ)
  { s with
    zoom := if scale_w < scale_h then scale_w else scale_h
    offset_x := 0
    offset_y := 0
    needs_rescale := 1 }

/-! ## The event switch of `main` (lines 338-441) -/

/-- Key symbols tested by the `KeyPress` case (lines 413-427). -/
inductive KeySym where
  | XK_q | XK_Q | XK_Escape | XK_r | XK_R
  | XK_plus | XK_equal | XK_minus | XK_underscore
  | XK_other
deriving DecidableEq, Repr

/-- X11 pointer button numbers. -/
def Button1 : ℕ := 1

/-- Wheel up. -/
def Button4 : ℕ := 4

/-- Wheel down. -/
def Button5 : ℕ := 5

/-- The events of the switch of lines 341-440 with the fields it reads. A
`MotionNotify` carries the last queued sample (the drain loop of lines
391-393 has already run). -/
inductive XEvent where
  | Expose (count : ℤ)
  | ConfigureNotify (width height : ℤ)
  | ButtonPress (button : ℕ) (x y : ℤ)
  | ButtonRelease (button : ℕ)
  | MotionNotify (x y : ℤ)
  | KeyPress (key : KeySym)
  | Other
deriving DecidableEq, Repr

/-- Lines 365-368: `zoom *= 1.1; if (zoom > 5.0) zoom = 5.0; needs_rescale = 1`. -/
def wheel_zoom_in (s : viewer_state) : viewer_state :=
  let z : ℚ := s.zoom * (11 / 10)
  { s with zoom := if z > 5 then 5 else z, needs_rescale := 1 }

/-- Lines 373-376: `zoom *= 0.9; if (zoom < 0.1) zoom = 0.1; needs_rescale = 1`. -/
def wheel_zoom_out (s : viewer_state) : viewer_state :=
  let z : ℚ := s.zoom * (9 / 10)
  { s with zoom := if z < 1 / 10 then 1 / 10 else z, needs_rescale := 1 }

/-- Lines 420-423: `zoom *= 1.2; if (zoom > 5.0) zoom = 5.0; needs_rescale = 1`. -/
def key_zoom_in (s : viewer_state) : viewer_state :=
  let z : ℚ := s.zoom * (6 / 5)
  { s with zoom := if z > 5 then 5 else z, needs_rescale := 1 }

/-- Lines 428-431: `zoom *= 0.8; if (zoom < 0.1) zoom = 0.1; needs_rescale = 1`. -/
def key_zoom_out (s : viewer_state) : viewer_state :=
  let z : ℚ := s.zoom * (4 / 5)
  { s with zoom := if z < 1 / 10 then 1 / 10 else z, needs_rescale := 1 }

/-- Lines 395-399: `offset_x += x - last_drag_x; offset_y += y - last_drag_y`. -/
def drag_offsets (s : viewer_state) (x y : ℤ) : viewer_state :=
  { s with
    offset_x := s.offset_x + (x - s.last_drag_x)
    offset_y := s.offset_y + (y - s.last_drag_y) }

/-- Lines 351-352: the window size taken from a `ConfigureNotify`. -/
def resize_window (s : viewer_state) (width height : ℤ) : viewer_state :=
  { s with win_width := width, win_height := height }

/-- One iteration of the loop body, lines 341-440, on the viewer state
(`present_backbuffer` and `create_backbuffer` touch no modelled field). -/
def handle_event (s : viewer_state) : XEvent → viewer_state
  | .Expose _ => s
  | .ConfigureNotify width height =>
    if width ≠ s.win_width ∨ height ≠ s.win_height then
      render_to_backbuffer (resize_window s width height)
    else s
  | .ButtonPress button x y =>
    if button = Button1 then
      { s with dragging := 1, last_drag_x := x, last_drag_y := y }
    else if button = Button4 then
      render_to_backbuffer (clamp_offsets (wheel_zoom_in s))
    else if button = Button5 then
      render_to_backbuffer (clamp_offsets (wheel_zoom_out s))
    else s
  | .ButtonRelease button =>
    if button = Button1 then { s with dragging := 0 } else s
  | .MotionNotify x y =>
    if s.dragging ≠ 0 then
      let s1 := render_to_backbuffer (clamp_offsets (drag_offsets s x y))
      { s1 with last_drag_x := x, last_drag_y := y }
    else s
  | .KeyPress key =>
    if key = .XK_q ∨ key = .XK_Q ∨ key = .XK_Escape then s
    else if key = .XK_r ∨ key = .XK_R then
      render_to_backbuffer (reset_view s)
    else if key = .XK_plus ∨ key = .XK_equal then
      render_to_backbuffer (clamp_offsets (key_zoom_in s))
    else if key = .XK_minus ∨ key = .XK_underscore then
      render_to_backbuffer (clamp_offsets (key_zoom_out s))
    else s
  | .Other => s

/-- The state passed to the call of `render_to_backbuffer` made while handling
an event (lines 354, 370, 378, 402, 417, 425, 433); `none` when the case
draws no frame. -/
def frame_input (s : viewer_state) : XEvent → Option viewer_state
  | .Expose _ => none
  | .ConfigureNotify width height =>
    if width ≠ s.win_width ∨ height ≠ s.win_height then
      some (resize_window s width height)
    else none
  | .ButtonPress button _ _ =>
    if button = Button1 then none
    else if button = Button4 then some (clamp_offsets (wheel_zoom_in s))
    else if button = Button5 then some (clamp_offsets (wheel_zoom_out s))
    else none
  | .ButtonRelease _ => none
  | .MotionNotify x y =>
    if s.dragging ≠ 0 then some (clamp_offsets (drag_offsets s x y)) else none
  | .KeyPress key =>
    if key = .XK_q ∨ key = .XK_Q ∨ key = .XK_Escape then none
    else if key = .XK_r ∨ key = .XK_R then some (reset_view s)
    else if key = .XK_plus ∨ key = .XK_equal then some (clamp_offsets (key_zoom_in s))
    else if key = .XK_minus ∨ key = .XK_underscore then
      some (clamp_offsets (key_zoom_out s))
    else none
  | .Other => none

/-- Line 414: the keys that set `running = 0`. -/
def quits : XEvent → Bool
  | .KeyPress key => decide (key = .XK_q ∨ key = .XK_Q ∨ key = .XK_Escape)
  | _ => false

/-- The loop of lines 338-441 over a finite event stream: the state when the
stream is exhausted or a quit key was handled. -/
def main_loop (s : viewer_state) : List XEvent → viewer_state
  | [] => s
  | e :: es => if quits e then handle_event s e else main_loop (handle_event s e) es

/-- The events that call `reset_view` (line 415). -/
def is_reset : XEvent → Bool
  | .KeyPress key => decide (key = .XK_r ∨ key = .XK_R)
  | _ => false

/-- The fit-to-window ratio assigned to `zoom` by `reset_view` (lines 214-216). -/
def fit_ratio (s : viewer_state) : ℚ := (reset_view s).zoom

/-- Along the event stream, every reset happens in a state whose fit-to-window
ratio lies in `[0.1, 5.0]`. -/
def resets_fit (s : viewer_state) : List XEvent → Prop
  | [] => True
  | e :: es =>
    (is_reset e = true → 1 / 10 ≤ fit_ratio s ∧ fit_ratio s ≤ 5) ∧
      (quits e = true ∨ resets_fit (handle_event s e) es)

/-! ## Start-up (lines 260-306) and sample states -/

/-- Lines 260-306 of `main`: the state handed to the first
`render_to_backbuffer` (line 334) for a decoded image of the given size on a
screen of the given size. -/
def startup (img_width img_height screen_width screen_height : ℤ) : viewer_state :=
  let max_width : ℤ := screen_width - 100
  let max_height : ℤ := screen_height - 100
  let scale_w : ℚ := (max_width : ℚ) / (img_width : ℚ)
  let scale_h : ℚ := (max_height : ℚ) / (img_height : ℚ)
  let scale : ℚ := if scale_w < scale_h then scale_w else scale_h
  let shrink : Bool := decide (img_width > max_width ∨ img_height > max_height)
  { cached_scaled := none
    img_width := img_width
    img_height := img_height
    win_width := if shrink then c_int ((img_width : ℚ) * scale) else img_width
    win_height := if shrink then c_int ((img_height : ℚ) * scale) else img_height
    zoom := if shrink then scale else 1
    initial_zoom := if shrink then scale else 1
    offset_x := 0
    offset_y := 0
    dragging := 0
    last_drag_x := 0
    last_drag_y := 0
    cached_scaled_width := 0
    cached_scaled_height := 0
    needs_rescale := 1 }

/-- A viewer state with the given image size, window size, zoom and offsets,
not dragging, with no cached image and `needs_rescale = 1`. -/
def view (img_width img_height win_width win_height : ℤ) (zoom : ℚ)
    (offset_x offset_y : ℤ) : viewer_state :=
  { cached_scaled := none
    img_width := img_width
    img_height := img_height
    win_width := win_width
    win_height := win_height
    zoom := zoom
    initial_zoom := zoom
    offset_x := offset_x
    offset_y := offset_y
    dragging := 0
    last_drag_x := 0
    last_drag_y := 0
    cached_scaled_width := 0
    cached_scaled_height := 0
    needs_rescale := 1 }

/-- The range `[0.1, 5.0]` for `zoom`. -/
def zoom_in_range (s : viewer_state) : Prop := 1 / 10 ≤ s.zoom ∧ s.zoom ≤ 5

/-! ## Binary64 arithmetic

The claims decided by rounding (C1, C6, C10) are settled on the definitions
of this section, in which every `double` operation of `slim.c` is followed by
IEEE 754 binary64 rounding to nearest, ties to even (`round64`). Exponent
range is not modelled: on the values that occur (zero, or magnitudes between
`2^(-1022)` and `2^1024`) the result is the one of the hardware. An `int`
converted to `double` is exact. The integer-only statements (`clamp_pair`,
lines 154-167) are shared with the exact model. -/

namespace Binary64

/-- Halving loop for `log2_nat`; `fuel` bounds the number of steps. -/
def log2_fuel : ℕ → ℕ → ℕ
  | 0, _ => 0
  | fuel + 1, n => if 2 ≤ n then log2_fuel fuel (n / 2) + 1 else 0

/-- The integer part of the binary logarithm of `n ≥ 1`. -/
def log2_nat (n : ℕ) : ℕ := log2_fuel n n

/-- The exponent `e` with `2^e ≤ a < 2^(e+1)` of a positive rational. -/
def binade (a : ℚ) : ℤ :=
  let e0 : ℤ := (log2_nat a.num.natAbs : ℤ) - (log2_nat a.den : ℤ)
  if a < (2 : ℚ) ^ e0 then e0 - 1 else e0

/-- Rounding to the nearest integer, ties to the even one. -/
def round_even (m : ℚ) : ℤ :=
  if m - ⌊m⌋ < 1 / 2 then ⌊m⌋
  else if 1 / 2 < m - ⌊m⌋ then ⌊m⌋ + 1
  else if ⌊m⌋ % 2 = 0 then ⌊m⌋ else ⌊m⌋ + 1

/-- The binary64 value nearest to `q` (53-bit significand, ties to even): the
result of one `double` operation whose exact result is `q`, and the value of a
decimal literal `q`. -/
def round64 (q : ℚ) : ℚ :=
  if q = 0 then 0
  else if 0 < q then
    (round_even (q / (2 : ℚ) ^ (binade q - 52)) : ℚ) * (2 : ℚ) ^ (binade q - 52)
  else
    -((round_even (-q / (2 : ℚ) ^ (binade (-q) - 52)) : ℚ) * (2 : ℚ) ^ (binade (-q) - 52))

/-- Lines 68 and 115: `scaled_width = (int)(state->img_width * state->zoom)`. -/
def scaled_width (s : viewer_state) : ℤ :=
  c_int (round64 ((s.img_width : ℚ) * s.zoom))

/-- Lines 69 and 116: `scaled_height = (int)(state->img_height * state->zoom)`. -/
def scaled_height (s : viewer_state) : ℤ :=
  c_int (round64 ((s.img_height : ℚ) * s.zoom))

/-- Line 71: `max_offset_x = (int)(scaled_width * 0.8)`. -/
def max_offset_x (s : viewer_state) : ℤ :=
  c_int (round64 ((scaled_width s : ℚ) * round64 (4 / 5)))

/-- Line 72: `max_offset_y = (int)(scaled_height * 0.8)`. -/
def max_offset_y (s : viewer_state) : ℤ :=
  c_int (round64 ((scaled_height s : ℚ) * round64 (4 / 5)))

/-- The function `clamp_offsets` (lines 60-82). -/
def clamp_offsets (s : viewer_state) : viewer_state :=
  { s with
    offset_x := clamp_pair s.offset_x (max_offset_x s)
    offset_y := clamp_pair s.offset_y (max_offset_y s) }

/-- Line 118: `draw_x = (win_width - scaled_width) / 2 + offset_x`. -/
def draw_x (s : viewer_state) : ℤ :=
  Int.tdiv (s.win_width - scaled_width s) 2 + s.offset_x

/-- Line 119: `draw_y = (win_height - scaled_height) / 2 + offset_y`. -/
def draw_y (s : viewer_state) : ℤ :=
  Int.tdiv (s.win_height - scaled_height s) 2 + s.offset_y

/-- Lines 121-151: the values of the locals just before line 154. -/
def clip_lines_121_151 (s : viewer_state) : clip_locals :=
  let src_x : ℤ :=
    if draw_x s < 0 then c_int (round64 (((-draw_x s : ℤ) : ℚ) / s.zoom)) else 0
  let dest_x : ℤ := if draw_x s < 0 then 0 else draw_x s
  let src_y : ℤ :=
    if draw_y s < 0 then c_int (round64 (((-draw_y s : ℤ) : ℚ) / s.zoom)) else 0
  let dest_y : ℤ := if draw_y s < 0 then 0 else draw_y s
  let src_w : ℤ :=
    if draw_x s + scaled_width s > s.win_width then
      s.img_width - src_x -
        c_int (round64 ((((draw_x s + scaled_width s) - s.win_width : ℤ) : ℚ) / s.zoom))
    else s.img_width - src_x
  let src_h : ℤ :=
    if draw_y s + scaled_height s > s.win_height then
      s.img_height - src_y -
        c_int (round64 ((((draw_y s + scaled_height s) - s.win_height : ℤ) : ℚ) / s.zoom))
    else s.img_height - src_y
  { src_x := src_x, src_y := src_y, src_w := src_w, src_h := src_h,
    dest_x := dest_x, dest_y := dest_y }

/-- Lines 169-170 and the call of lines 179-186: `dest_w = (int)(src_w * zoom)`,
`dest_h = (int)(src_h * zoom)`. -/
def crop_of_locals (s : viewer_state) (l : clip_locals) : crop_call :=
  { src_x := l.src_x, src_y := l.src_y, src_w := l.src_w, src_h := l.src_h,
    dest_x := l.dest_x, dest_y := l.dest_y,
    dest_w := c_int (round64 ((l.src_w : ℚ) * s.zoom)),
    dest_h := c_int (round64 ((l.src_h : ℚ) * s.zoom)) }

/-- Lines 115-170 of `render_to_backbuffer`: `none` when the function takes one
of the early returns of lines 158-163, otherwise the crop call it performs. -/
def render_clip (s : viewer_state) : Option crop_call :=
  let l := clip_lines_154_157 (clip_lines_121_151 s)
  if clip_lines_158_163 s l then none
  else some (crop_of_locals s (clip_lines_164_167 s l))

/-- The function `reset_view` (lines 208-221): `scale_w` and `scale_h` are the
rounded quotients. -/
def reset_view (s : viewer_state) : viewer_state :=
  let scale_w : ℚ := round64 ((s.win_width : ℚ) / (s.img_width : ℚ))
  let scale_h : ℚ := round64 ((s.win_height : ℚ) / (s.img_height : ℚ))
  { s with
    zoom := if scale_w < scale_h then scale_w else scale_h
    offset_x := 0
    offset_y := 0
    needs_rescale := 1 }

end Binary64

/-! ## Auxiliary facts about truncation -/

theorem c_int_nonneg {q : ℚ} (h : 0 ≤ q) : 0 ≤ c_int q := by
  unfold c_int
  rw [if_pos h]
  exact Int.floor_nonneg.mpr h

theorem c_int_le {q : ℚ} (h : 0 ≤ q) : (c_int q : ℚ) ≤ q := by
  unfold c_int
  rw [if_pos h]
  exact Int.floor_le q

theorem lt_c_int_add_one {q : ℚ} (h : 0 ≤ q) : q < (c_int q : ℚ) + 1 := by
  unfold c_int
  rw [if_pos h]
  exact Int.lt_floor_add_one q

theorem c_int_intCast (n : ℤ) : c_int (n : ℚ) = n := by
  unfold c_int
  split <;> simp

theorem tdiv_two_of_nonneg {a : ℤ} (h : 0 ≤ a) : Int.tdiv a 2 = a / 2 :=
  Int.tdiv_eq_ediv h (by decide)

theorem tdiv_two_of_neg {a : ℤ} (h : a < 0) : Int.tdiv a 2 = -((-a) / 2) := by
  have e : a = -(-a) := by omega
  rw [e, Int.neg_tdiv, Int.tdiv_eq_ediv (by omega) (by decide)]
  simp

theorem clamp_pair_abs {v m : ℤ} (hm : 0 ≤ m) : |clamp_pair v m| ≤ m := by
  unfold clamp_pair
  rw [abs_le]
  dsimp only
  split_ifs <;> constructor <;> omega

/-! ## Auxiliary facts about binary64 rounding -/

namespace Binary64

/-- With enough fuel the halving loop returns the binary logarithm. -/
theorem log2_fuel_spec (fuel n : ℕ) (h1 : 1 ≤ n) (h2 : n ≤ fuel) :
    2 ^ log2_fuel fuel n ≤ n ∧ n < 2 ^ (log2_fuel fuel n + 1) := by
  induction fuel generalizing n with
  | zero => omega
  | succ fuel ih =>
    unfold log2_fuel
    split_ifs with h
    · obtain ⟨a, b⟩ := ih (n / 2) (by omega) (by omega)
      rw [pow_succ] at b ⊢
      rw [pow_succ]
      constructor <;> omega
    · have : n = 1 := by omega
      subst this
      norm_num

/-- `log2_nat n` is the integer binary logarithm of `n ≥ 1`. -/
theorem log2_nat_spec (n : ℕ) (h : 1 ≤ n) :
    2 ^ log2_nat n ≤ n ∧ n < 2 ^ (log2_nat n + 1) :=
  log2_fuel_spec n n h le_rfl

/-- The exponent found for a positive rational brackets it. -/
theorem binade_spec {a : ℚ} (ha : 0 < a) :
    (2 : ℚ) ^ binade a ≤ a ∧ a < (2 : ℚ) ^ (binade a + 1) := by
  have hnum : 0 < a.num := Rat.num_pos.mpr ha
  have hp : 1 ≤ a.num.natAbs := by omega
  have hd : 1 ≤ a.den := a.den_pos
  obtain ⟨p1, p2⟩ := log2_nat_spec _ hp
  obtain ⟨d1, d2⟩ := log2_nat_spec _ hd
  have ea : a = (a.num.natAbs : ℚ) / (a.den : ℚ) := by
    have h2 : (a.num.natAbs : ℚ) = (a.num : ℚ) := by
      rw [Nat.cast_natAbs, abs_of_pos hnum]
    rw [h2]
    exact (Rat.num_div_den a).symm
  have P1 : ((2 : ℚ) ^ log2_nat a.num.natAbs) ≤ (a.num.natAbs : ℚ) := by exact_mod_cast p1
  have P2 : (a.num.natAbs : ℚ) < (2 : ℚ) ^ (log2_nat a.num.natAbs + 1) := by exact_mod_cast p2
  have D1 : ((2 : ℚ) ^ log2_nat a.den) ≤ (a.den : ℚ) := by exact_mod_cast d1
  have D2 : (a.den : ℚ) < (2 : ℚ) ^ (log2_nat a.den + 1) := by exact_mod_cast d2
  have hden : (0 : ℚ) < (a.den : ℚ) := by exact_mod_cast a.den_pos
  set lp := log2_nat a.num.natAbs with hlp
  set ld := log2_nat a.den with hld
  have two_ne : (2 : ℚ) ≠ 0 := by norm_num
  have hpos : ∀ k : ℤ, (0 : ℚ) < (2 : ℚ) ^ k := fun k => zpow_pos (by norm_num) k
  have hstep : ∀ k : ℤ, (2 : ℚ) ^ (k + 1) = (2 : ℚ) ^ k * 2 := fun k => by
    rw [zpow_add₀ two_ne, zpow_one]
  have e0 : (2 : ℚ) ^ ((lp : ℤ) - (ld : ℤ)) = (2 : ℚ) ^ lp / (2 : ℚ) ^ ld := by
    rw [zpow_sub₀ two_ne, zpow_natCast, zpow_natCast]
  -- a < 2 ^ (e0 + 1) and 2 ^ (e0 - 1) < a
  have up : a < (2 : ℚ) ^ ((lp : ℤ) - (ld : ℤ) + 1) := by
    rw [hstep, e0, ea, div_lt_iff₀ hden]
    have : (2 : ℚ) ^ lp / (2 : ℚ) ^ ld * 2 * (a.den : ℚ)
        = (2 : ℚ) ^ (lp + 1) * ((a.den : ℚ) / (2 : ℚ) ^ ld) := by
      rw [pow_succ]; field_simp
    rw [this]
    have h1 : (1 : ℚ) ≤ (a.den : ℚ) / (2 : ℚ) ^ ld := by
      rw [le_div_iff₀ (pow_pos (by norm_num) ld)]; linarith
    have h2 : (0 : ℚ) < (2 : ℚ) ^ (lp + 1) := pow_pos (by norm_num) _
    nlinarith
  have lo : (2 : ℚ) ^ ((lp : ℤ) - (ld : ℤ) - 1) ≤ a := by
    have h3 : (2 : ℚ) ^ ((lp : ℤ) - (ld : ℤ)) = (2 : ℚ) ^ ((lp : ℤ) - (ld : ℤ) - 1) * 2 := by
      rw [← hstep]; congr 1; ring
    have h4 : (2 : ℚ) ^ lp / (2 : ℚ) ^ ld ≤ a * 2 := by
      rw [div_le_iff₀ (pow_pos (by norm_num) ld), ea]
      have : (a.num.natAbs : ℚ) / (a.den : ℚ) * 2 * (2 : ℚ) ^ ld
          = (a.num.natAbs : ℚ) * ((2 : ℚ) ^ (ld + 1) / (a.den : ℚ)) := by
        rw [pow_succ]; field_simp; ring
      rw [this]
      have h1 : (1 : ℚ) ≤ (2 : ℚ) ^ (ld + 1) / (a.den : ℚ) := by
        rw [le_div_iff₀ hden]; linarith
      have h2 : (0 : ℚ) ≤ (a.num.natAbs : ℚ) := by positivity
      nlinarith
    rw [e0] at h3
    linarith
  unfold binade
  simp only [← hlp, ← hld]
  split_ifs with hc
  · refine ⟨lo, ?_⟩
    have : (lp : ℤ) - (ld : ℤ) - 1 + 1 = (lp : ℤ) - (ld : ℤ) := by ring
    rw [this]
    exact hc
  · exact ⟨not_lt.mp hc, up⟩

/-- `round_even m` is within `1/2` of `m` and not below its integer part. -/
theorem round_even_spec (m : ℚ) :
    (m - 1 / 2 ≤ (round_even m : ℚ) ∧ (round_even m : ℚ) ≤ m + 1 / 2) ∧ ⌊m⌋ ≤ round_even m := by
  have h1 := Int.floor_le m
  have h2 := Int.lt_floor_add_one m
  unfold round_even
  split_ifs with a b c
  · exact ⟨⟨by linarith, by linarith⟩, le_rfl⟩
  · refine ⟨⟨by push_cast; linarith, by push_cast; linarith⟩, by omega⟩
  · exact ⟨⟨by linarith, by linarith⟩, le_rfl⟩
  · refine ⟨⟨by push_cast; linarith, by push_cast; linarith⟩, by omega⟩

/-- Unfolding of `round64` at a positive argument. -/
theorem round64_of_pos {q : ℚ} (hq : 0 < q) :
    round64 q = (round_even (q / (2 : ℚ) ^ (binade q - 52)) : ℚ) * (2 : ℚ) ^ (binade q - 52) := by
  unfold round64
  rw [if_neg hq.ne', if_pos hq]

/-- The leading power of two is `2^52` units in the last place. -/
theorem two_zpow_binade (q : ℚ) :
    (2 : ℚ) ^ binade q = (2 : ℚ) ^ (binade q - 52) * 2 ^ 52 := by
  rw [zpow_sub₀ (by norm_num : (2 : ℚ) ≠ 0)]
  have : (2 : ℚ) ^ (52 : ℤ) = 2 ^ 52 := by norm_cast
  rw [this]
  field_simp

/-- The relative error of binary64 rounding is at most `2^(-53)`. -/
theorem round64_error {q : ℚ} (hq : 0 < q) :
    q * (1 - 1 / 2 ^ 53) ≤ round64 q ∧ round64 q ≤ q * (1 + 1 / 2 ^ 53) := by
  obtain ⟨b1, _⟩ := binade_spec hq
  have hu : (0 : ℚ) < (2 : ℚ) ^ (binade q - 52) := zpow_pos (by norm_num) _
  have e1 := two_zpow_binade q
  obtain ⟨⟨r1, r2⟩, _⟩ := round_even_spec (q / (2 : ℚ) ^ (binade q - 52))
  have e2 : q / (2 : ℚ) ^ (binade q - 52) * (2 : ℚ) ^ (binade q - 52) = q :=
    div_mul_cancel₀ _ hu.ne'
  rw [round64_of_pos hq]
  have h3 : (2 : ℚ) ^ (binade q - 52) * 2 ^ 52 ≤ q := by rw [← e1]; exact b1
  have k1 := mul_le_mul_of_nonneg_right r1 hu.le
  have k2 := mul_le_mul_of_nonneg_right r2 hu.le
  rw [sub_mul, e2] at k1
  rw [add_mul, e2] at k2
  constructor
  · nlinarith
  · nlinarith

/-- Rounding keeps a non-negative value non-negative. -/
theorem round64_nonneg {q : ℚ} (hq : 0 ≤ q) : 0 ≤ round64 q := by
  rcases hq.eq_or_lt with h | h
  · rw [← h]; simp [round64]
  · have := (round64_error h).1
    have h2 : (0 : ℚ) ≤ q * (1 - 1 / 2 ^ 53) := mul_nonneg h.le (by norm_num)
    linarith

/-- Rounding keeps a value at least `1` at least `1`. -/
theorem one_le_round64 {q : ℚ} (hq : 1 ≤ q) : 1 ≤ round64 q := by
  have hq0 : 0 < q := by linarith
  obtain ⟨b1, b2⟩ := binade_spec hq0
  have hu : (0 : ℚ) < (2 : ℚ) ^ (binade q - 52) := zpow_pos (by norm_num) _
  have e1 : (2 : ℚ) ^ binade q = (2 : ℚ) ^ (binade q - 52) * 4503599627370496 := by
    rw [two_zpow_binade q]; norm_num
  have hb : 0 ≤ binade q := by
    by_contra hneg
    have h1 : binade q + 1 ≤ 0 := by omega
    have h2 : (2 : ℚ) ^ (binade q + 1) ≤ (2 : ℚ) ^ (0 : ℤ) :=
      zpow_le_zpow_right₀ (by norm_num) h1
    rw [zpow_zero] at h2
    linarith
  have h1 : (1 : ℚ) ≤ (2 : ℚ) ^ binade q := by
    have := zpow_le_zpow_right₀ (by norm_num : (1 : ℚ) ≤ 2) hb
    rwa [zpow_zero] at this
  obtain ⟨_, r3⟩ := round_even_spec (q / (2 : ℚ) ^ (binade q - 52))
  have h2 : ((4503599627370496 : ℤ) : ℚ) ≤ q / (2 : ℚ) ^ (binade q - 52) := by
    rw [le_div_iff₀ hu]
    push_cast
    linarith
  have h3 : (4503599627370496 : ℤ) ≤ round_even (q / (2 : ℚ) ^ (binade q - 52)) :=
    le_trans (Int.le_floor.mpr h2) r3
  have h4 : ((4503599627370496 : ℤ) : ℚ) ≤
      (round_even (q / (2 : ℚ) ^ (binade q - 52)) : ℚ) := by
    exact_mod_cast h3
  rw [round64_of_pos hq0]
  push_cast at h4
  have h5 := mul_le_mul_of_nonneg_right h4 hu.le
  linarith

/-- Rounding a non-negative value moves it up by at most the relative error
`2^(-53)`. -/
theorem round64_le {q : ℚ} (hq : 0 ≤ q) : round64 q ≤ q * (1 + 1 / 2 ^ 53) := by
  rcases hq.eq_or_lt with h | h
  · rw [← h]; simp [round64]
  · exact (round64_error h).2

end Binary64

/-! ## C1: the pan limiter -/

namespace Binary64

/-- One axis of `clamp_offsets` in binary64: with `0 ≤ n` and `0 ≤ z` the limit
`(int)((int)(n * z) * 0.8)` is non-negative, and a value clamped to it is at
most `0.8 * n * z * (1 + 2^(-51))` in absolute value (three roundings, each of
relative error `2^(-53)`). -/
theorem clamp_axis_bound {n : ℤ} {z : ℚ} (v : ℤ) (hn : 0 ≤ n) (hz : 0 ≤ z) :
    0 ≤ c_int (round64 ((c_int (round64 ((n : ℚ) * z)) : ℚ) * round64 (4 / 5))) ∧
    ((|clamp_pair v
        (c_int (round64 ((c_int (round64 ((n : ℚ) * z)) : ℚ) * round64 (4 / 5))))| : ℤ) : ℚ)
      ≤ 4 / 5 * n * z * (1 + 1 / 2 ^ 51) := by
  have hA : (0 : ℚ) ≤ (n : ℚ) * z := mul_nonneg (by exact_mod_cast hn) hz
  have hr1 : (0 : ℚ) ≤ round64 ((n : ℚ) * z) := round64_nonneg hA
  have hr1' := round64_le hA
  have hsw : (0 : ℚ) ≤ (c_int (round64 ((n : ℚ) * z)) : ℚ) := by
    exact_mod_cast c_int_nonneg hr1
  have hsw' := c_int_le hr1
  have hc : (0 : ℚ) ≤ round64 (4 / 5) := round64_nonneg (by norm_num)
  have hc' : round64 (4 / 5) ≤ 4 / 5 * (1 + 1 / 2 ^ 53) := round64_le (by norm_num)
  have hp : (0 : ℚ) ≤ (c_int (round64 ((n : ℚ) * z)) : ℚ) * round64 (4 / 5) :=
    mul_nonneg hsw hc
  have hr2 := round64_nonneg hp
  have hr2' := round64_le hp
  have hm := c_int_nonneg hr2
  have hm' := c_int_le hr2
  refine ⟨hm, ?_⟩
  have h3 := clamp_pair_abs (v := v) hm
  have h4 : ((|clamp_pair v
      (c_int (round64 ((c_int (round64 ((n : ℚ) * z)) : ℚ) * round64 (4 / 5))))| : ℤ) : ℚ)
      ≤ (c_int (round64 ((c_int (round64 ((n : ℚ) * z)) : ℚ) * round64 (4 / 5))) : ℚ) := by
    exact_mod_cast h3
  have hU : (0 : ℚ) ≤ 1 + 1 / 2 ^ 53 := by norm_num
  have hAU : (0 : ℚ) ≤ (n : ℚ) * z * (1 + 1 / 2 ^ 53) := mul_nonneg hA hU
  have h5 : (c_int (round64 ((n : ℚ) * z)) : ℚ) * round64 (4 / 5)
      ≤ ((n : ℚ) * z * (1 + 1 / 2 ^ 53)) * (4 / 5 * (1 + 1 / 2 ^ 53)) :=
    mul_le_mul (le_trans hsw' hr1') hc' hc hAU
  have h6 : (c_int (round64 ((n : ℚ) * z)) : ℚ) * round64 (4 / 5) * (1 + 1 / 2 ^ 53)
      ≤ ((n : ℚ) * z * (1 + 1 / 2 ^ 53)) * (4 / 5 * (1 + 1 / 2 ^ 53)) * (1 + 1 / 2 ^ 53) :=
    mul_le_mul_of_nonneg_right h5 hU
  have h7 : ((n : ℚ) * z * (1 + 1 / 2 ^ 53)) * (4 / 5 * (1 + 1 / 2 ^ 53)) * (1 + 1 / 2 ^ 53)
      = 4 / 5 * n * z * ((1 + 1 / 2 ^ 53) ^ 3) := by ring
  have h8 : ((1 : ℚ) + 1 / 2 ^ 53) ^ 3 ≤ 1 + 1 / 2 ^ 51 := by norm_num
  have h9 : 4 / 5 * (n : ℚ) * z * ((1 + 1 / 2 ^ 53) ^ 3) ≤ 4 / 5 * n * z * (1 + 1 / 2 ^ 51) :=
    mul_le_mul_of_nonneg_left h8 (by linarith)
  linarith

/-- C1, as stated, fails on the rounded products of lines 68-72: for an image
2000x2000 at the binary64 zoom nearest to `0.49` (the start-up zoom of such an
image on a 1920x1080 screen) the product `2000 * zoom` rounds up to `980.0`
and `980 * 0.8` rounds to `784.0`, so offsets `(1000, -1000)` are clamped to
`(784, -784)`, while `0.8 * 2000 * zoom < 784`. -/
theorem clamp_offsets_exceeds_bound :
    (0 < (view 2000 2000 980 980 (round64 (49 / 100)) 1000 (-1000)).img_width ∧
      0 < (view 2000 2000 980 980 (round64 (49 / 100)) 1000 (-1000)).img_height ∧
      1 / 10 ≤ (view 2000 2000 980 980 (round64 (49 / 100)) 1000 (-1000)).zoom ∧
      (view 2000 2000 980 980 (round64 (49 / 100)) 1000 (-1000)).zoom ≤ 5) ∧
    (view 2000 2000 980 980 (round64 (49 / 100)) 1000 (-1000)).zoom =
      2206763817411543 / 4503599627370496 ∧
    scaled_width (view 2000 2000 980 980 (round64 (49 / 100)) 1000 (-1000)) = 980 ∧
    (clamp_offsets (view 2000 2000 980 980 (round64 (49 / 100)) 1000 (-1000))).offset_x = 784 ∧
    (clamp_offsets (view 2000 2000 980 980 (round64 (49 / 100)) 1000 (-1000))).offset_y = -784 ∧
    ¬ ((784 : ℚ) ≤ 4 / 5 *
        (view 2000 2000 980 980 (round64 (49 / 100)) 1000 (-1000)).img_width *
        (view 2000 2000 980 980 (round64 (49 / 100)) 1000 (-1000)).zoom) ∧
    ¬ ((784 : ℚ) ≤ 4 / 5 *
        (view 2000 2000 980 980 (round64 (49 / 100)) 1000 (-1000)).img_height *
        (view 2000 2000 980 980 (round64 (49 / 100)) 1000 (-1000)).zoom) := by
  decide!

/-- C1, amended: for a state with positive image size and `zoom` in
`[0.1, 5.0]`, and any integer offsets, the offsets left by `clamp_offsets` are
bounded by the limits the code computes, `|offset_x| ≤ max_offset_x` and
`|offset_y| ≤ max_offset_y`, and these satisfy the stated bound up to binary64
rounding: `|offset_x| ≤ 0.8 * img_width * zoom * (1 + 2^(-51))` and
`|offset_y| ≤ 0.8 * img_height * zoom * (1 + 2^(-51))`. -/
theorem clamp_offsets_rounded_bound (s : viewer_state)
    (hw : 0 < s.img_width) (hh : 0 < s.img_height)
    (hz1 : 1 / 10 ≤ s.zoom) (_hz2 : s.zoom ≤ 5) :
    (|(clamp_offsets s).offset_x| ≤ max_offset_x s ∧
      |(clamp_offsets s).offset_y| ≤ max_offset_y s) ∧
    ((|(clamp_offsets s).offset_x| : ℤ) : ℚ)
      ≤ 4 / 5 * s.img_width * s.zoom * (1 + 1 / 2 ^ 51) ∧
    ((|(clamp_offsets s).offset_y| : ℤ) : ℚ)
      ≤ 4 / 5 * s.img_height * s.zoom * (1 + 1 / 2 ^ 51) := by
  have hz : (0 : ℚ) ≤ s.zoom := by linarith
  obtain ⟨mx, bx⟩ := clamp_axis_bound s.offset_x hw.le hz
  obtain ⟨my, by'⟩ := clamp_axis_bound s.offset_y hh.le hz
  exact ⟨⟨clamp_pair_abs mx, clamp_pair_abs my⟩, bx, by'⟩

end Binary64

/-! ## C2 and C9: the source rectangle and the defensive clamps -/

/-- The locals before line 154: `src_x` and `src_y` are non-negative and the
source rectangle does not exceed the image on the right or at the bottom. -/
theorem clip_lines_121_151_facts (s : viewer_state) (hz : 0 < s.zoom) :
    0 ≤ (clip_lines_121_151 s).src_x ∧ 0 ≤ (clip_lines_121_151 s).src_y ∧
    (clip_lines_121_151 s).src_x + (clip_lines_121_151 s).src_w ≤ s.img_width ∧
    (clip_lines_121_151 s).src_y + (clip_lines_121_151 s).src_h ≤ s.img_height := by
  have key : ∀ d : ℤ, 0 < d → 0 ≤ c_int ((d : ℚ) / s.zoom) := fun d hd =>
    c_int_nonneg (div_nonneg (by exact_mod_cast hd.le) hz.le)
  have hx : 0 ≤ (clip_lines_121_151 s).src_x := by
    simp only [clip_lines_121_151]
    split_ifs with h
    · exact key _ (by omega)
    · exact le_refl _
  have hy : 0 ≤ (clip_lines_121_151 s).src_y := by
    simp only [clip_lines_121_151]
    split_ifs with h
    · exact key _ (by omega)
    · exact le_refl _
  refine ⟨hx, hy, ?_, ?_⟩
  · simp only [clip_lines_121_151]
    split_ifs with h1 h2 h2
    · have := key (draw_x s + scaled_width s - s.win_width) (by omega)
      omega
    · omega
    · have := key (draw_x s + scaled_width s - s.win_width) (by omega)
      omega
    · omega
  · simp only [clip_lines_121_151]
    split_ifs with h1 h2 h2
    · have := key (draw_y s + scaled_height s - s.win_height) (by omega)
      omega
    · omega
    · have := key (draw_y s + scaled_height s - s.win_height) (by omega)
      omega
    · omega

/-- Whatever the locals before line 154, a crop call that survives lines
154-167 lies inside the image and is non-empty. -/
theorem clamped_locals_in_image (s : viewer_state) (l : clip_locals)
    (h : clip_lines_158_163 s (clip_lines_154_157 l) = false) :
    0 ≤ (clip_lines_164_167 s (clip_lines_154_157 l)).src_x ∧
    0 ≤ (clip_lines_164_167 s (clip_lines_154_157 l)).src_y ∧
    1 ≤ (clip_lines_164_167 s (clip_lines_154_157 l)).src_w ∧
    1 ≤ (clip_lines_164_167 s (clip_lines_154_157 l)).src_h ∧
    (clip_lines_164_167 s (clip_lines_154_157 l)).src_x +
      (clip_lines_164_167 s (clip_lines_154_157 l)).src_w ≤ s.img_width ∧
    (clip_lines_164_167 s (clip_lines_154_157 l)).src_y +
      (clip_lines_164_167 s (clip_lines_154_157 l)).src_h ≤ s.img_height := by
  simp only [clip_lines_158_163, clip_lines_154_157, Bool.or_eq_false_iff,
    decide_eq_false_iff_not, not_or, not_le, ge_iff_le] at h
  obtain ⟨⟨hx, hy⟩, hw, hh⟩ := h
  simp only [clip_lines_164_167, clip_lines_154_157]
  refine ⟨?_, ?_, ?_, ?_, ?_, ?_⟩ <;> split_ifs at hx hy ⊢ <;> omega

/-- Unfolding of `render_clip` at a state where it performs the crop. -/
theorem render_clip_eq_some {s : viewer_state} {c : crop_call} (h : render_clip s = some c) :
    clip_lines_158_163 s (clip_lines_154_157 (clip_lines_121_151 s)) = false ∧
    c = crop_of_locals s
      (clip_lines_164_167 s (clip_lines_154_157 (clip_lines_121_151 s))) := by
  unfold render_clip at h
  dsimp only at h
  split_ifs at h with hr
  refine ⟨by simpa using hr, ?_⟩
  exact (Option.some.inj h).symm

/-- C2: for a state with positive image and window dimensions, `zoom > 0` and
any offsets, whenever `render_to_backbuffer` reaches the crop call, the source
rectangle satisfies `0 ≤ src_x`, `0 ≤ src_y`, `src_w ≥ 1`, `src_h ≥ 1`,
`src_x + src_w ≤ img_width` and `src_y + src_h ≤ img_height`. -/
theorem render_clip_source_in_image (s : viewer_state) (c : crop_call)
    (_hiw : 0 < s.img_width) (_hih : 0 < s.img_height)
    (_hww : 0 < s.win_width) (_hwh : 0 < s.win_height) (_hz : 0 < s.zoom)
    (hc : render_clip s = some c) :
    0 ≤ c.src_x ∧ 0 ≤ c.src_y ∧ 1 ≤ c.src_w ∧ 1 ≤ c.src_h ∧
    c.src_x + c.src_w ≤ s.img_width ∧ c.src_y + c.src_h ≤ s.img_height := by
  obtain ⟨hr, rfl⟩ := render_clip_eq_some hc
  exact clamped_locals_in_image s _ hr

/-- C9: for a state with positive image size and `zoom > 0` (any window size
and offsets) the four clamps of lines 154-157 and 164-167 never fire: before
line 154 `src_x ≥ 0` and `src_y ≥ 0`, before line 164
`src_x + src_w ≤ img_width` and `src_y + src_h ≤ img_height`, each clamp block
leaves the locals unchanged, and the clip computation without the four
statements gives the same early-return decision and the same rectangles. -/
theorem render_clip_clamps_never_fire (s : viewer_state)
    (_hiw : 0 < s.img_width) (_hih : 0 < s.img_height) (hz : 0 < s.zoom) :
    (0 ≤ (clip_lines_121_151 s).src_x ∧ 0 ≤ (clip_lines_121_151 s).src_y) ∧
    ((clip_lines_154_157 (clip_lines_121_151 s)).src_x +
        (clip_lines_154_157 (clip_lines_121_151 s)).src_w ≤ s.img_width ∧
      (clip_lines_154_157 (clip_lines_121_151 s)).src_y +
        (clip_lines_154_157 (clip_lines_121_151 s)).src_h ≤ s.img_height) ∧
    clip_lines_154_157 (clip_lines_121_151 s) = clip_lines_121_151 s ∧
    clip_lines_164_167 s (clip_lines_154_157 (clip_lines_121_151 s)) =
      clip_lines_154_157 (clip_lines_121_151 s) ∧
    render_clip_no_clamps s = render_clip s := by
  obtain ⟨hx, hy, hw, hh⟩ := clip_lines_121_151_facts s hz
  have e1 : clip_lines_154_157 (clip_lines_121_151 s) = clip_lines_121_151 s := by
    simp only [clip_lines_154_157, if_neg (not_lt.mpr hx), if_neg (not_lt.mpr hy)]
  have e2 : clip_lines_164_167 s (clip_lines_121_151 s) = clip_lines_121_151 s := by
    simp only [clip_lines_164_167, gt_iff_lt, if_neg (not_lt.mpr hw), if_neg (not_lt.mpr hh)]
  refine ⟨⟨hx, hy⟩, ?_, e1, ?_, ?_⟩
  · rw [e1]; exact ⟨hw, hh⟩
  · rw [e1, e2]
  · simp only [render_clip, render_clip_no_clamps, e1, e2]

/-! ## C6 and C8: reset and the centred view -/

namespace Binary64

/-- C6, as stated, fails on the rounded quotients of lines 214-215: for an
image 1000x1000 in a window 1001x1001 `reset_view` stores the binary64 value
nearest to `1001/1000`, which is smaller than the exact quotient, and the next
frame computes `scaled_width = 1000`, not `1001`. -/
theorem reset_view_zoom_not_exact :
    (0 < (view 1000 1000 1001 1001 1 0 0).img_width ∧
      0 < (view 1000 1000 1001 1001 1 0 0).img_height ∧
      0 < (view 1000 1000 1001 1001 1 0 0).win_width ∧
      0 < (view 1000 1000 1001 1001 1 0 0).win_height) ∧
    (reset_view (view 1000 1000 1001 1001 1 0 0)).zoom =
      2254051613498933 / 2251799813685248 ∧
    ¬ ((reset_view (view 1000 1000 1001 1001 1 0 0)).zoom =
        min (((view 1000 1000 1001 1001 1 0 0).win_width : ℚ) /
              (view 1000 1000 1001 1001 1 0 0).img_width)
            (((view 1000 1000 1001 1001 1 0 0).win_height : ℚ) /
              (view 1000 1000 1001 1001 1 0 0).img_height)) ∧
    scaled_width (reset_view (view 1000 1000 1001 1001 1 0 0)) = 1000 := by
  decide!

/-- C6, amended: for a state with positive image and window dimensions,
`reset_view` leaves `offset_x = 0`, `offset_y = 0` and `zoom` equal to the
smaller of the two quotients `win_width / img_width` and
`win_height / img_height` after each is rounded to binary64, which is within
a relative error `2^(-53)` of the exact minimum, and changes no image or window
dimension; for an image 1000x500 in a window 500x500 this gives `zoom = 1/2`
exactly, and `render_to_backbuffer` then computes `scaled_width = 500`,
`scaled_height = 250` and `draw_y = 125`. -/
theorem reset_view_rounded_fit (s : viewer_state)
    (hiw : 0 < s.img_width) (hih : 0 < s.img_height)
    (hww : 0 < s.win_width) (hwh : 0 < s.win_height) :
    ((reset_view s).offset_x = 0 ∧ (reset_view s).offset_y = 0 ∧
      (reset_view s).zoom =
        min (round64 ((s.win_width : ℚ) / s.img_width))
          (round64 ((s.win_height : ℚ) / s.img_height)) ∧
      min ((s.win_width : ℚ) / s.img_width) ((s.win_height : ℚ) / s.img_height)
          * (1 - 1 / 2 ^ 53) ≤ (reset_view s).zoom ∧
      (reset_view s).zoom ≤
        min ((s.win_width : ℚ) / s.img_width) ((s.win_height : ℚ) / s.img_height)
          * (1 + 1 / 2 ^ 53) ∧
      (reset_view s).img_width = s.img_width ∧ (reset_view s).img_height = s.img_height ∧
      (reset_view s).win_width = s.win_width ∧ (reset_view s).win_height = s.win_height) ∧
    (s.img_width = 1000 ∧ s.img_height = 500 ∧ s.win_width = 500 ∧ s.win_height = 500 →
      (reset_view s).zoom = 1 / 2 ∧ scaled_width (reset_view s) = 500 ∧
      scaled_height (reset_view s) = 250 ∧ draw_y (reset_view s) = 125) := by
  have hz : (reset_view s).zoom =
      min (round64 ((s.win_width : ℚ) / s.img_width))
        (round64 ((s.win_height : ℚ) / s.img_height)) := by
    simp only [reset_view]
    rcases lt_or_le (round64 ((s.win_width : ℚ) / s.img_width))
      (round64 ((s.win_height : ℚ) / s.img_height)) with h | h
    · rw [if_pos h, min_eq_left h.le]
    · rw [if_neg (not_lt.mpr h), min_eq_right h]
  have ha : (0 : ℚ) < (s.win_width : ℚ) / s.img_width :=
    div_pos (by exact_mod_cast hww) (by exact_mod_cast hiw)
  have hb : (0 : ℚ) < (s.win_height : ℚ) / s.img_height :=
    div_pos (by exact_mod_cast hwh) (by exact_mod_cast hih)
  obtain ⟨a1, a2⟩ := round64_error ha
  obtain ⟨b1, b2⟩ := round64_error hb
  have hlo : (0 : ℚ) ≤ 1 - 1 / 2 ^ 53 := by norm_num
  have hhi : (0 : ℚ) ≤ 1 + 1 / 2 ^ 53 := by norm_num
  refine ⟨⟨rfl, rfl, hz, ?_, ?_, rfl, rfl, rfl, rfl⟩, ?_⟩
  · rw [hz, le_min_iff]
    constructor
    · exact le_trans (mul_le_mul_of_nonneg_right (min_le_left _ _) hlo) a1
    · exact le_trans (mul_le_mul_of_nonneg_right (min_le_right _ _) hlo) b1
  · rw [hz]
    rcases le_total ((s.win_width : ℚ) / s.img_width) ((s.win_height : ℚ) / s.img_height)
      with h | h
    · rw [min_eq_left h]
      exact le_trans (min_le_left _ _) a2
    · rw [min_eq_right h]
      exact le_trans (min_le_right _ _) b2
  · rintro ⟨h1, h2, h3, h4⟩
    have hz2 : (reset_view s).zoom = 1 / 2 := by
      simp only [reset_view, h1, h2, h3, h4]
      decide!
    have hsw : scaled_width (reset_view s) = 500 := by
      rw [scaled_width, hz2]
      show c_int (round64 ((s.img_width : ℚ) * (1 / 2))) = 500
      rw [h1]
      decide!
    have hsh : scaled_height (reset_view s) = 250 := by
      rw [scaled_height, hz2]
      show c_int (round64 ((s.img_height : ℚ) * (1 / 2))) = 250
      rw [h2]
      decide!
    refine ⟨hz2, hsw, hsh, ?_⟩
    rw [draw_y, hsh]
    show Int.tdiv (s.win_height - 250) 2 + 0 = 125
    rw [h4]
    decide

end Binary64

/-- C8: with `0 < win_width ≤ img_width`, `0 < win_height ≤ img_height`,
`zoom = 1` and offset `(0, 0)`, `render_to_backbuffer` crops the centred
window-sized rectangle: `src_x = (img_width - win_width) / 2`,
`src_y = (img_height - win_height) / 2`, `src_w = win_width`,
`src_h = win_height`, drawn at `(0, 0)` with size `win_width x win_height`
(the numerators are non-negative, so `/` on `ℤ` is C division here). -/
theorem render_clip_centered (s : viewer_state)
    (hww : 0 < s.win_width) (hwi : s.win_width ≤ s.img_width)
    (hwh : 0 < s.win_height) (hhi : s.win_height ≤ s.img_height)
    (hz : s.zoom = 1) (hox : s.offset_x = 0) (hoy : s.offset_y = 0) :
    render_clip s = some
      { src_x := (s.img_width - s.win_width) / 2, src_y := (s.img_height - s.win_height) / 2,
        src_w := s.win_width, src_h := s.win_height,
        dest_x := 0, dest_y := 0, dest_w := s.win_width, dest_h := s.win_height } := by
  have hsw : scaled_width s = s.img_width := by
    rw [scaled_width, hz, mul_one, c_int_intCast]
  have hsh : scaled_height s = s.img_height := by
    rw [scaled_height, hz, mul_one, c_int_intCast]
  have hdx : draw_x s = -((s.img_width - s.win_width) / 2) := by
    rw [draw_x, hsw, hox]
    rcases lt_or_le (s.win_width - s.img_width) 0 with h | h
    · rw [tdiv_two_of_neg h]; omega
    · rw [tdiv_two_of_nonneg h]; omega
  have hdy : draw_y s = -((s.img_height - s.win_height) / 2) := by
    rw [draw_y, hsh, hoy]
    rcases lt_or_le (s.win_height - s.img_height) 0 with h | h
    · rw [tdiv_two_of_neg h]; omega
    · rw [tdiv_two_of_nonneg h]; omega
  have hl : clip_lines_121_151 s =
      { src_x := (s.img_width - s.win_width) / 2, src_y := (s.img_height - s.win_height) / 2,
        src_w := s.win_width, src_h := s.win_height, dest_x := 0, dest_y := 0 } := by
    simp only [clip_lines_121_151, hsw, hsh, hdx, hdy, hz, div_one, c_int_intCast]
    congr 1 <;> split_ifs <;> omega
  have h1 : clip_lines_154_157 (clip_lines_121_151 s) = clip_lines_121_151 s := by
    rw [hl]
    simp only [clip_lines_154_157]
    congr 1 <;> split_ifs <;> omega
  have h2 : clip_lines_164_167 s (clip_lines_121_151 s) = clip_lines_121_151 s := by
    rw [hl]
    simp only [clip_lines_164_167]
    congr 1 <;> split_ifs <;> omega
  have h3 : clip_lines_158_163 s (clip_lines_121_151 s) = false := by
    rw [hl]
    simp only [clip_lines_158_163, Bool.or_eq_false_iff, decide_eq_false_iff_not, not_or,
      not_le, ge_iff_le]
    refine ⟨⟨?_, ?_⟩, ?_, ?_⟩ <;> omega
  unfold render_clip
  dsimp only
  rw [h1, h3, if_neg (by decide), h2, hl]
  simp only [crop_of_locals, hz, mul_one, c_int_intCast]


/-! ## C3 and C10: the destination rectangle -/

/-- One axis of lines 118-170, for an image extent `n`, window extent `w`,
draw position `d` and scaled extent `sw`: when the clipped source extent is
positive, the destination start plus the destination extent stays below
`w + 2 * z + 1`. -/
theorem axis_overshoot {n w d sw : ℤ} {z : ℚ} (hz : 0 < z) (hn : 0 ≤ n)
    (hsw : sw = c_int ((n : ℚ) * z))
    (hpos : 0 <
      (if d + sw > w then
        n - (if d < 0 then c_int (((-d : ℤ) : ℚ) / z) else 0) -
          c_int ((((d + sw) - w : ℤ) : ℚ) / z)
      else n - (if d < 0 then c_int (((-d : ℤ) : ℚ) / z) else 0))) :
    (((if d < 0 then 0 else d : ℤ) : ℚ) +
      (c_int (((if d + sw > w then
        n - (if d < 0 then c_int (((-d : ℤ) : ℚ) / z) else 0) -
          c_int ((((d + sw) - w : ℤ) : ℚ) / z)
      else n - (if d < 0 then c_int (((-d : ℤ) : ℚ) / z) else 0) : ℤ) : ℚ) * z) : ℚ))
      < (w : ℚ) + 2 * z + 1 := by
  have hnz : (0 : ℚ) ≤ (n : ℚ) * z := mul_nonneg (by exact_mod_cast hn) hz.le
  have hA : (n : ℚ) * z < (sw : ℚ) + 1 := by rw [hsw]; exact lt_c_int_add_one hnz
  have hB : ∀ k : ℤ, 0 < k → (k : ℚ) < (c_int ((k : ℚ) / z) : ℚ) * z + z := by
    intro k hk
    have h0 : (0 : ℚ) ≤ (k : ℚ) / z := div_nonneg (by exact_mod_cast hk.le) hz.le
    have h1 := lt_c_int_add_one h0
    have h2 : (k : ℚ) / z * z = k := div_mul_cancel₀ _ hz.ne'
    nlinarith
  have hC : ∀ m : ℤ, 0 < m → (c_int ((m : ℚ) * z) : ℚ) ≤ (m : ℚ) * z := fun m hm =>
    c_int_le (mul_nonneg (by exact_mod_cast hm.le) hz.le)
  have hD := hC _ hpos
  by_cases hx : d < 0 <;> by_cases hc : d + sw > w <;>
    simp only [hx, hc, if_true, if_false] at hpos hD ⊢
  · have e1 := hB (d + sw - w) (by omega)
    have e2 := hB (-d) (by omega)
    push_cast at hD e1 e2 ⊢
    linarith
  · have e2 := hB (-d) (by omega)
    have hw : ((d + sw : ℤ) : ℚ) ≤ w := by exact_mod_cast not_lt.mp hc
    push_cast at hD e2 hw ⊢
    linarith
  · have e1 := hB (d + sw - w) (by omega)
    have hd : (0 : ℚ) ≤ d := by exact_mod_cast not_lt.mp hx
    push_cast at hD e1 ⊢
    linarith
  · have hw : ((d + sw : ℤ) : ℚ) ≤ w := by exact_mod_cast not_lt.mp hc
    push_cast at hD hw ⊢
    linarith


/-- With `zoom > 0` a crop call is built from the locals of lines 121-151
unchanged, and these have positive `src_w` and `src_h`. -/
theorem render_clip_eq_some_pos {s : viewer_state} {c : crop_call} (hz : 0 < s.zoom)
    (h : render_clip s = some c) :
    c = crop_of_locals s (clip_lines_121_151 s) ∧
    0 < (clip_lines_121_151 s).src_w ∧ 0 < (clip_lines_121_151 s).src_h := by
  obtain ⟨hr, hc⟩ := render_clip_eq_some h
  obtain ⟨hx, hy, hw, hh⟩ := clip_lines_121_151_facts s hz
  have e1 : clip_lines_154_157 (clip_lines_121_151 s) = clip_lines_121_151 s := by
    simp only [clip_lines_154_157, if_neg (not_lt.mpr hx), if_neg (not_lt.mpr hy)]
  have e2 : clip_lines_164_167 s (clip_lines_121_151 s) = clip_lines_121_151 s := by
    simp only [clip_lines_164_167, gt_iff_lt, if_neg (not_lt.mpr hw), if_neg (not_lt.mpr hh)]
  rw [e1] at hr hc
  rw [e2] at hc
  simp only [clip_lines_158_163, Bool.or_eq_false_iff, decide_eq_false_iff_not, not_or,
    not_le] at hr
  exact ⟨hc, hr.2.1, hr.2.2⟩

/-- The destination rectangle of any crop call made with `zoom > 0` and a
non-negative image size has a non-negative origin and overshoots the right and
bottom edges of the window by less than `2 * zoom + 1`. -/
theorem render_clip_dest_overshoot (s : viewer_state) (c : crop_call)
    (hiw : 0 ≤ s.img_width) (hih : 0 ≤ s.img_height) (hz : 0 < s.zoom)
    (hc : render_clip s = some c) :
    0 ≤ c.dest_x ∧ 0 ≤ c.dest_y ∧
    ((c.dest_x + c.dest_w : ℤ) : ℚ) < (s.win_width : ℚ) + 2 * s.zoom + 1 ∧
    ((c.dest_y + c.dest_h : ℤ) : ℚ) < (s.win_height : ℚ) + 2 * s.zoom + 1 := by
  obtain ⟨rfl, hw, hh⟩ := render_clip_eq_some_pos hz hc
  simp only [clip_lines_121_151] at hw hh
  simp only [crop_of_locals, clip_lines_121_151]
  refine ⟨?_, ?_, ?_, ?_⟩
  · split_ifs <;> omega
  · split_ifs <;> omega
  · have := axis_overshoot (w := s.win_width) (d := draw_x s) hz hiw
      (show scaled_width s = _ from rfl) hw
    rw [Int.cast_add]
    exact this
  · have := axis_overshoot (w := s.win_height) (d := draw_y s) hz hih
      (show scaled_height s = _ from rfl) hh
    rw [Int.cast_add]
    exact this


/-- C3, as stated, fails: an image 10x10 at `zoom = 5` in a window 49x49 with
offsets `(0, 0)` (unchanged by `clamp_offsets`) reaches the crop call with the
destination rectangle `(0, 0, 50, 50)`, which is wider and taller than the
window. -/
theorem dest_rectangle_exceeds_window :
    (0 < (view 10 10 49 49 5 0 0).img_width ∧ 0 < (view 10 10 49 49 5 0 0).img_height ∧
      0 < (view 10 10 49 49 5 0 0).win_width ∧ 0 < (view 10 10 49 49 5 0 0).win_height ∧
      1 / 10 ≤ (view 10 10 49 49 5 0 0).zoom ∧ (view 10 10 49 49 5 0 0).zoom ≤ 5) ∧
    clamp_offsets (view 10 10 49 49 5 0 0) = view 10 10 49 49 5 0 0 ∧
    render_clip (clamp_offsets (view 10 10 49 49 5 0 0)) =
      some { src_x := 0, src_y := 0, src_w := 10, src_h := 10,
             dest_x := 0, dest_y := 0, dest_w := 50, dest_h := 50 } ∧
    (render_clip (clamp_offsets (view 10 10 49 49 5 0 0))).map
      (fun c => decide (c.dest_x + c.dest_w ≤ (view 10 10 49 49 5 0 0).win_width)) =
        some false ∧
    (render_clip (clamp_offsets (view 10 10 49 49 5 0 0))).map
      (fun c => decide (c.dest_y + c.dest_h ≤ (view 10 10 49 49 5 0 0).win_height)) =
        some false := by
  decide!

/-- C3, amended: for a state with positive image and window dimensions, `zoom`
in `[0.1, 5.0]` and offsets clamped by `clamp_offsets`, whenever
`render_to_backbuffer` reaches the crop call, the destination rectangle has a
non-negative origin (`0 ≤ dest_x`, `0 ≤ dest_y`) and overshoots the right and
bottom edges of the window by less than `2 * zoom + 1` pixels, hence by at
most 10. -/
theorem render_clip_dest_near_window (s : viewer_state) (c : crop_call)
    (hiw : 0 < s.img_width) (hih : 0 < s.img_height)
    (_hww : 0 < s.win_width) (_hwh : 0 < s.win_height)
    (hz1 : 1 / 10 ≤ s.zoom) (hz2 : s.zoom ≤ 5)
    (hc : render_clip (clamp_offsets s) = some c) :
    0 ≤ c.dest_x ∧ 0 ≤ c.dest_y ∧
    ((c.dest_x + c.dest_w : ℤ) : ℚ) < (s.win_width : ℚ) + 2 * s.zoom + 1 ∧
    ((c.dest_y + c.dest_h : ℤ) : ℚ) < (s.win_height : ℚ) + 2 * s.zoom + 1 ∧
    c.dest_x + c.dest_w ≤ s.win_width + 10 ∧ c.dest_y + c.dest_h ≤ s.win_height + 10 := by
  have hz : 0 < (clamp_offsets s).zoom := lt_of_lt_of_le (by norm_num) hz1
  obtain ⟨hx, hy, hw, hh⟩ :=
    render_clip_dest_overshoot (clamp_offsets s) c hiw.le hih.le hz hc
  have hw2 : (s.win_width : ℚ) + 2 * s.zoom + 1 ≤ ((s.win_width + 11 : ℤ) : ℚ) := by
    push_cast; linarith
  have hh2 : (s.win_height : ℚ) + 2 * s.zoom + 1 ≤ ((s.win_height + 11 : ℤ) : ℚ) := by
    push_cast; linarith
  have hw3 : c.dest_x + c.dest_w < s.win_width + 11 := by
    exact_mod_cast lt_of_lt_of_le hw hw2
  have hh3 : c.dest_y + c.dest_h < s.win_height + 11 := by
    exact_mod_cast lt_of_lt_of_le hh hh2
  exact ⟨hx, hy, hw, hh, by omega, by omega⟩

namespace Binary64

/-- Unfolding of `render_clip` at a state where it performs the crop. -/
theorem render_clip_some {s : viewer_state} {c : crop_call} (h : render_clip s = some c) :
    clip_lines_158_163 s (clip_lines_154_157 (clip_lines_121_151 s)) = false ∧
    c = crop_of_locals s
      (clip_lines_164_167 s (clip_lines_154_157 (clip_lines_121_151 s))) := by
  unfold render_clip at h
  dsimp only at h
  split_ifs at h with hr
  refine ⟨by simpa using hr, ?_⟩
  exact (Option.some.inj h).symm

/-- The cast of a rounded value that is at least `1` before rounding. -/
theorem one_le_c_int_round64 {q : ℚ} (h : 1 ≤ q) : 1 ≤ c_int (round64 q) := by
  have h1 := one_le_round64 h
  unfold c_int
  rw [if_pos (by linarith), Int.le_floor]
  exact_mod_cast h1

/-- C10, as stated, fails: a 1x1 image at `zoom = 1/2` in a window 10x10 with
offsets `(0, 0)` reaches the crop call with the source rectangle
`(0, 0, 1, 1)` and the empty destination size `dest_w = dest_h = 0`
(`1 * 0.5` is exact in binary64, and `(int)0.5 = 0`). -/
theorem rounded_dest_size_can_be_zero :
    (0 < (view 1 1 10 10 (1 / 2) 0 0).img_width ∧ 0 < (view 1 1 10 10 (1 / 2) 0 0).img_height ∧
      0 < (view 1 1 10 10 (1 / 2) 0 0).win_width ∧
      0 < (view 1 1 10 10 (1 / 2) 0 0).win_height ∧
      1 / 10 ≤ (view 1 1 10 10 (1 / 2) 0 0).zoom ∧ (view 1 1 10 10 (1 / 2) 0 0).zoom ≤ 5) ∧
    render_clip (clamp_offsets (view 1 1 10 10 (1 / 2) 0 0)) =
      some { src_x := 0, src_y := 0, src_w := 1, src_h := 1,
             dest_x := 5, dest_y := 5, dest_w := 0, dest_h := 0 } ∧
    (render_clip (clamp_offsets (view 1 1 10 10 (1 / 2) 0 0))).map
      (fun c => decide (c.dest_w ≥ 1)) = some false ∧
    (render_clip (clamp_offsets (view 1 1 10 10 (1 / 2) 0 0))).map
      (fun c => decide (c.dest_h ≥ 1)) = some false := by
  decide!

/-- C10, amended: for a state with positive image and window dimensions, `zoom`
in `[0.1, 5.0]` and offsets clamped by `clamp_offsets`, whenever
`render_to_backbuffer` reaches the crop call, the destination size is
non-negative (`dest_w ≥ 0`, `dest_h ≥ 0`), `dest_w ≥ 1` whenever
`src_w * zoom ≥ 1` and `dest_h ≥ 1` whenever `src_h * zoom ≥ 1`; in particular
both are at least 1 whenever `zoom ≥ 1`. -/
theorem render_clip_rounded_dest_size (s : viewer_state) (c : crop_call)
    (_hiw : 0 < s.img_width) (_hih : 0 < s.img_height)
    (_hww : 0 < s.win_width) (_hwh : 0 < s.win_height)
    (hz1 : 1 / 10 ≤ s.zoom) (_hz2 : s.zoom ≤ 5)
    (hc : render_clip (clamp_offsets s) = some c) :
    0 ≤ c.dest_w ∧ 0 ≤ c.dest_h ∧
    (1 ≤ (c.src_w : ℚ) * s.zoom → 1 ≤ c.dest_w) ∧
    (1 ≤ (c.src_h : ℚ) * s.zoom → 1 ≤ c.dest_h) ∧
    (1 ≤ s.zoom → 1 ≤ c.dest_w ∧ 1 ≤ c.dest_h) := by
  have hz0 : (0 : ℚ) < s.zoom := lt_of_lt_of_le (by norm_num) hz1
  obtain ⟨hr, rfl⟩ := render_clip_some hc
  obtain ⟨_, _, hw, hh, _, _⟩ :=
    clamped_locals_in_image (clamp_offsets s) (clip_lines_121_151 (clamp_offsets s)) hr
  have hw1 : (1 : ℚ) ≤ ((clip_lines_164_167 (clamp_offsets s)
      (clip_lines_154_157 (clip_lines_121_151 (clamp_offsets s)))).src_w : ℚ) := by
    exact_mod_cast hw
  have hh1 : (1 : ℚ) ≤ ((clip_lines_164_167 (clamp_offsets s)
      (clip_lines_154_157 (clip_lines_121_151 (clamp_offsets s)))).src_h : ℚ) := by
    exact_mod_cast hh
  have qw : (0 : ℚ) ≤ ((clip_lines_164_167 (clamp_offsets s)
      (clip_lines_154_157 (clip_lines_121_151 (clamp_offsets s)))).src_w : ℚ) * s.zoom := by
    nlinarith
  have qh : (0 : ℚ) ≤ ((clip_lines_164_167 (clamp_offsets s)
      (clip_lines_154_157 (clip_lines_121_151 (clamp_offsets s)))).src_h : ℚ) * s.zoom := by
    nlinarith
  refine ⟨c_int_nonneg (round64_nonneg qw), c_int_nonneg (round64_nonneg qh),
    one_le_c_int_round64, one_le_c_int_round64, fun h1 => ⟨?_, ?_⟩⟩
  · have pw : (1 : ℚ) ≤ ((clip_lines_164_167 (clamp_offsets s)
        (clip_lines_154_157 (clip_lines_121_151 (clamp_offsets s)))).src_w : ℚ) * s.zoom := by
      nlinarith
    exact one_le_c_int_round64 pw
  · have ph : (1 : ℚ) ≤ ((clip_lines_164_167 (clamp_offsets s)
        (clip_lines_154_157 (clip_lines_121_151 (clamp_offsets s)))).src_h : ℚ) * s.zoom := by
      nlinarith
    exact one_le_c_int_round64 ph

end Binary64

/-! ## C5: the pan limit and the visible part -/

/-- C5 evaluated on the code: an image 400x400 at `zoom = 1` in a window
100x100, panned by `offset_x = 1000`. `clamp_offsets` leaves `offset_x = 320`,
so `draw_x = 170` lies right of the window, lines 138-141 give
`src_w = 400 - 470 = -70`, and `render_to_backbuffer` takes the early return of
line 162: nothing of the image is drawn. The same state arises in the event
loop: a 400x400 image is opened, the window is resized to 100x100 and the
pointer is dragged 1000 pixels to the right. -/
theorem pan_limit_loses_image :
    (0 < (view 400 400 100 100 1 1000 0).img_width ∧
      0 < (view 400 400 100 100 1 1000 0).img_height ∧
      0 < (view 400 400 100 100 1 1000 0).win_width ∧
      0 < (view 400 400 100 100 1 1000 0).win_height ∧
      1 / 10 ≤ (view 400 400 100 100 1 1000 0).zoom ∧
      (view 400 400 100 100 1 1000 0).zoom ≤ 5) ∧
    (clamp_offsets (view 400 400 100 100 1 1000 0)).offset_x = 320 ∧
    draw_x (clamp_offsets (view 400 400 100 100 1 1000 0)) = 170 ∧
    (clip_lines_121_151 (clamp_offsets (view 400 400 100 100 1 1000 0))).src_w = -70 ∧
    render_clip (clamp_offsets (view 400 400 100 100 1 1000 0)) = none ∧
    (frame_input
        (main_loop (render_to_backbuffer (startup 400 400 1920 1080))
          [.ConfigureNotify 100 100, .ButtonPress Button1 50 50])
        (.MotionNotify 1050 50)).map
      (fun s1 => (s1.offset_x, s1.offset_y, render_clip s1)) = some (320, 0, none) := by
  decide!

/-! ## C4: the zoom range along the event loop -/

theorem render_to_backbuffer_zoom (s : viewer_state) :
    (render_to_backbuffer s).zoom = s.zoom := by
  unfold render_to_backbuffer
  split <;> rfl

theorem wheel_zoom_in_range {s : viewer_state} (h : zoom_in_range s) :
    zoom_in_range (wheel_zoom_in s) := by
  obtain ⟨h1, h2⟩ := h
  simp only [zoom_in_range, wheel_zoom_in]
  split_ifs with hc
  · norm_num
  · exact ⟨by linarith, not_lt.mp hc⟩

theorem wheel_zoom_out_range {s : viewer_state} (h : zoom_in_range s) :
    zoom_in_range (wheel_zoom_out s) := by
  obtain ⟨h1, h2⟩ := h
  simp only [zoom_in_range, wheel_zoom_out]
  split_ifs with hc
  · norm_num
  · exact ⟨not_lt.mp hc, by linarith⟩

theorem key_zoom_in_range {s : viewer_state} (h : zoom_in_range s) :
    zoom_in_range (key_zoom_in s) := by
  obtain ⟨h1, h2⟩ := h
  simp only [zoom_in_range, key_zoom_in]
  split_ifs with hc
  · norm_num
  · exact ⟨by linarith, not_lt.mp hc⟩

theorem key_zoom_out_range {s : viewer_state} (h : zoom_in_range s) :
    zoom_in_range (key_zoom_out s) := by
  obtain ⟨h1, h2⟩ := h
  simp only [zoom_in_range, key_zoom_out]
  split_ifs with hc
  · norm_num
  · exact ⟨not_lt.mp hc, by linarith⟩

/-- The frame drawn after a mutation keeps the zoom of the mutated state. -/
theorem zoom_in_range_render {s : viewer_state} (h : zoom_in_range s) :
    zoom_in_range (render_to_backbuffer s) := by
  unfold zoom_in_range
  rw [render_to_backbuffer_zoom]
  exact h

/-- One event keeps `zoom` in `[0.1, 5.0]`, provided that a reset happens only
where the fit-to-window ratio is in that range. -/
theorem handle_event_zoom_range (s : viewer_state) (e : XEvent) (h : zoom_in_range s)
    (hr : is_reset e = true → 1 / 10 ≤ fit_ratio s ∧ fit_ratio s ≤ 5) :
    zoom_in_range (handle_event s e) := by
  cases e with
  | Expose count => exact h
  | ConfigureNotify width height =>
    simp only [handle_event]
    split_ifs
    · exact zoom_in_range_render h
    · exact h
  | ButtonPress button x y =>
    simp only [handle_event]
    split_ifs
    · exact h
    · exact zoom_in_range_render (wheel_zoom_in_range h)
    · exact zoom_in_range_render (wheel_zoom_out_range h)
    · exact h
  | ButtonRelease button =>
    simp only [handle_event]
    split_ifs
    · exact h
    · exact h
  | MotionNotify x y =>
    simp only [handle_event]
    split_ifs
    · exact zoom_in_range_render (s := clamp_offsets (drag_offsets s x y)) h
    · exact h
  | KeyPress key =>
    simp only [handle_event]
    split_ifs with h1 h2 h3 h4
    · exact h
    · exact zoom_in_range_render (hr (by simpa [is_reset] using h2))
    · exact zoom_in_range_render (key_zoom_in_range h)
    · exact zoom_in_range_render (key_zoom_out_range h)
    · exact h
  | Other => exact h

/-- A stream without a reset event meets the side condition `resets_fit`. -/
theorem resets_fit_of_no_reset (s : viewer_state) (es : List XEvent)
    (h : ∀ e ∈ es, is_reset e = false) : resets_fit s es := by
  induction es generalizing s with
  | nil => trivial
  | cons e es ih =>
    refine ⟨fun he => ?_, Or.inr (ih _ fun e' he' => h e' (List.mem_cons_of_mem _ he'))⟩
    rw [h e (List.mem_cons_self _ _)] at he
    exact absurd he (by decide)

/-- C4, as stated, fails on `reset_view`: a 10x10 image opens at `zoom = 1`;
after the window is resized to 100x100 the key `r` sets `zoom = 10 > 5.0`.
A 2000x2000 image on a 1920x1080 screen opens at `zoom = 49/100`; after the
window is resized to 100x100 the key `r` sets `zoom = 1/20 < 0.1`. -/
theorem reset_view_leaves_zoom_range :
    (zoom_in_range (render_to_backbuffer (startup 10 10 1920 1080)) ∧
      (main_loop (render_to_backbuffer (startup 10 10 1920 1080))
        [.ConfigureNotify 100 100, .KeyPress .XK_r]).zoom = 10 ∧
      ¬ zoom_in_range (main_loop (render_to_backbuffer (startup 10 10 1920 1080))
        [.ConfigureNotify 100 100, .KeyPress .XK_r])) ∧
    (zoom_in_range (render_to_backbuffer (startup 2000 2000 1920 1080)) ∧
      (main_loop (render_to_backbuffer (startup 2000 2000 1920 1080))
        [.ConfigureNotify 100 100, .KeyPress .XK_r]).zoom = 1 / 20 ∧
      ¬ zoom_in_range (main_loop (render_to_backbuffer (startup 2000 2000 1920 1080))
        [.ConfigureNotify 100 100, .KeyPress .XK_r])) := by
  unfold zoom_in_range
  decide!

/-- C4, amended: from a state with `zoom` in `[0.1, 5.0]`, along any event
stream (wheel and key zoom, resize, drag, button and expose events, and resets)
in which every `reset_view` happens in a state whose fit-to-window ratio
`min (win_width / img_width) (win_height / img_height)` lies in `[0.1, 5.0]`,
`zoom` stays in `[0.1, 5.0]`. -/
theorem main_loop_zoom_range (s : viewer_state) (es : List XEvent)
    (h : zoom_in_range s) (hr : resets_fit s es) :
    zoom_in_range (main_loop s es) := by
  induction es generalizing s with
  | nil => exact h
  | cons e es ih =>
    obtain ⟨h1, h2⟩ := hr
    have hs := handle_event_zoom_range s e h h1
    simp only [main_loop]
    split_ifs with hq
    · exact hs
    · rcases h2 with h2 | h2
      · exact absurd h2 hq
      · exact ih _ hs h2

/-! ## C7: the flag `needs_rescale` -/

/-- The field `needs_rescale` after one event: the frame drawn for the event
decides it, and an event that draws no frame leaves it alone. -/
theorem handle_event_needs_rescale (s : viewer_state) (e : XEvent) :
    (handle_event s e).needs_rescale =
      match frame_input s e with
      | some s1 => (render_to_backbuffer s1).needs_rescale
      | none => s.needs_rescale := by
  cases e <;> simp only [handle_event, frame_input] <;> (try split_ifs) <;> rfl

/-- The flag after `render_to_backbuffer`: untouched on an early return,
`0` after a rebuild. -/
theorem render_to_backbuffer_needs_rescale (s : viewer_state) :
    (render_clip s = none → render_to_backbuffer s = s) ∧
    (∀ c, render_clip s = some c → (render_to_backbuffer s).needs_rescale = 0) := by
  constructor
  · intro h
    unfold render_to_backbuffer
    rw [h]
  · intro c h
    unfold render_to_backbuffer
    rw [h]

/-- The state handed to a frame either carries `needs_rescale = 1` or has the
zoom and the flag of the state before the event. -/
theorem frame_input_flag (s : viewer_state) (e : XEvent) (s1 : viewer_state)
    (h : frame_input s e = some s1) :
    s1.needs_rescale = 1 ∨ (s1.zoom = s.zoom ∧ s1.needs_rescale = s.needs_rescale) := by
  cases e <;> simp only [frame_input] at h <;> (try split_ifs at h) <;> cases h <;>
    first
    | exact Or.inl rfl
    | exact Or.inr ⟨rfl, rfl⟩

/-- C7, as stated, fails for resize and drag. After the first frame of a
400x400 image (`needs_rescale = 0`), a resize to 100x100 hands
`render_to_backbuffer` a state with a new window size and `needs_rescale = 0`;
and a drag from `(50, 50)` to `(30, 80)` hands it a state with offsets
`(-20, 30)` and `needs_rescale = 0`. -/
theorem needs_rescale_not_set_by_resize_and_drag :
    (render_to_backbuffer (startup 400 400 1920 1080)).needs_rescale = 0 ∧
    (frame_input (render_to_backbuffer (startup 400 400 1920 1080))
        (.ConfigureNotify 100 100)).map
      (fun s1 => (s1.win_width, s1.win_height, s1.needs_rescale)) = some (100, 100, 0) ∧
    (frame_input
        (handle_event (render_to_backbuffer (startup 400 400 1920 1080))
          (.ButtonPress Button1 50 50))
        (.MotionNotify 30 80)).map
      (fun s1 => (s1.offset_x, s1.offset_y, s1.needs_rescale)) = some (-20, 30, 0) := by
  decide!

/-- C7, amended: for every event-loop transition that changes `zoom` (wheel
zoom, key zoom, reset), `needs_rescale` equals 1 in the state handed to
`render_to_backbuffer`; pointer drag and resize hand the flag over unchanged;
and `needs_rescale` goes back to 0 only on the path of `render_to_backbuffer`
that performs the rebuild (an early return leaves the state as it is, and an
event after which the flag is 0 either found it 0 or drew a frame that reached
the crop call). -/
theorem needs_rescale_follows_zoom (s : viewer_state) (e : XEvent) :
    (∀ s1, frame_input s e = some s1 → s1.zoom ≠ s.zoom → s1.needs_rescale = 1) ∧
    (∀ x y s1, e = .MotionNotify x y → frame_input s e = some s1 →
      s1.needs_rescale = s.needs_rescale) ∧
    (∀ width height s1, e = .ConfigureNotify width height → frame_input s e = some s1 →
      s1.needs_rescale = s.needs_rescale) ∧
    (∀ s1, frame_input s e = some s1 → render_clip s1 = none →
      (handle_event s e).needs_rescale = s1.needs_rescale) ∧
    ((handle_event s e).needs_rescale = 0 → s.needs_rescale = 0 ∨
      ∃ s1 c, frame_input s e = some s1 ∧ render_clip s1 = some c) := by
  refine ⟨?_, ?_, ?_, ?_, ?_⟩
  · intro s1 h hz
    rcases frame_input_flag s e s1 h with h1 | ⟨h1, _⟩
    · exact h1
    · exact absurd h1 hz
  · rintro x y s1 rfl h
    simp only [frame_input] at h
    split_ifs at h
    cases h
    rfl
  · rintro width height s1 rfl h
    simp only [frame_input] at h
    split_ifs at h
    cases h
    rfl
  · intro s1 h hn
    rw [handle_event_needs_rescale, h]
    show (render_to_backbuffer s1).needs_rescale = s1.needs_rescale
    rw [(render_to_backbuffer_needs_rescale s1).1 hn]
  · intro h0
    rw [handle_event_needs_rescale] at h0
    cases hf : frame_input s e with
    | none =>
      rw [hf] at h0
      exact Or.inl h0
    | some s1 =>
      rw [hf] at h0
      cases hc : render_clip s1 with
      | none =>
        have h2 : (render_to_backbuffer s1).needs_rescale = s1.needs_rescale := by
          rw [(render_to_backbuffer_needs_rescale s1).1 hc]
        have h3 : s1.needs_rescale = 0 := h2 ▸ h0
        rcases frame_input_flag s e s1 hf with h1 | ⟨_, h1⟩
        · rw [h3] at h1
          exact absurd h1 (by decide)
        · exact Or.inl (h1 ▸ h3)
      | some c => exact Or.inr ⟨s1, c, rfl, hc⟩

/-! ## Instances of the theorems on concrete states -/

/-- C1 (amended) at the image 2000x2000 at the binary64 zoom nearest to `0.49`,
offsets `(1000, -1000)`: the clamped offsets `784` equal the limits of the
code and lie within the relaxed bound. -/
theorem clamp_offsets_rounded_bound_witness :
    (Binary64.clamp_offsets
        (view 2000 2000 980 980 (Binary64.round64 (49 / 100)) 1000 (-1000))).offset_x = 784 ∧
    Binary64.max_offset_x
        (view 2000 2000 980 980 (Binary64.round64 (49 / 100)) 1000 (-1000)) = 784 ∧
    ((|(Binary64.clamp_offsets
          (view 2000 2000 980 980 (Binary64.round64 (49 / 100)) 1000 (-1000))).offset_x| : ℤ)
        : ℚ) ≤
      4 / 5 * (view 2000 2000 980 980 (Binary64.round64 (49 / 100)) 1000 (-1000)).img_width *
        (view 2000 2000 980 980 (Binary64.round64 (49 / 100)) 1000 (-1000)).zoom *
        (1 + 1 / 2 ^ 51) :=
  ⟨by decide!, by decide!,
    (Binary64.clamp_offsets_rounded_bound
      (view 2000 2000 980 980 (Binary64.round64 (49 / 100)) 1000 (-1000))
      (by decide!) (by decide!) (by decide!) (by decide!)).2.1⟩

/-- C10 (amended) at an image 400x300, window 100x100, `zoom = 2`, offsets
`(30, -40)`: `zoom ≥ 1`, and the destination size is `100 x 100`. -/
theorem render_clip_rounded_dest_size_witness :
    Binary64.render_clip (Binary64.clamp_offsets (view 400 300 100 100 2 30 (-40))) =
      some { src_x := 160, src_y := 145, src_w := 50, src_h := 50,
             dest_x := 0, dest_y := 0, dest_w := 100, dest_h := 100 } ∧
    1 ≤ (view 400 300 100 100 2 30 (-40)).zoom ∧
    ((1 : ℤ) ≤ 100 ∧ (1 : ℤ) ≤ 100) :=
  ⟨by decide!, by decide!,
    (Binary64.render_clip_rounded_dest_size (view 400 300 100 100 2 30 (-40))
      { src_x := 160, src_y := 145, src_w := 50, src_h := 50,
        dest_x := 0, dest_y := 0, dest_w := 100, dest_h := 100 }
      (by decide!) (by decide!) (by decide!) (by decide!) (by decide!) (by decide!)
      (by decide!)).2.2.2.2 (by decide!)⟩

/-- C6 (amended) at the image 1000x500 in the window 500x500, where the
quotient `1/2` is exact, and at the image 1000x1000 in the window 1001x1001,
where the stored zoom is the rounded quotient. -/
theorem reset_view_rounded_fit_witness :
    ((Binary64.reset_view (view 1000 500 500 500 1 30 (-40))).zoom = 1 / 2 ∧
      Binary64.scaled_width (Binary64.reset_view (view 1000 500 500 500 1 30 (-40))) = 500 ∧
      Binary64.scaled_height (Binary64.reset_view (view 1000 500 500 500 1 30 (-40))) = 250 ∧
      Binary64.draw_y (Binary64.reset_view (view 1000 500 500 500 1 30 (-40))) = 125) ∧
    (Binary64.reset_view (view 1000 1000 1001 1001 1 0 0)).zoom =
      min (Binary64.round64 (((view 1000 1000 1001 1001 1 0 0).win_width : ℚ) /
            (view 1000 1000 1001 1001 1 0 0).img_width))
          (Binary64.round64 (((view 1000 1000 1001 1001 1 0 0).win_height : ℚ) /
            (view 1000 1000 1001 1001 1 0 0).img_height)) :=
  ⟨(Binary64.reset_view_rounded_fit (view 1000 500 500 500 1 30 (-40))
      (by decide!) (by decide!) (by decide!) (by decide!)).2 ⟨rfl, rfl, rfl, rfl⟩,
    (Binary64.reset_view_rounded_fit (view 1000 1000 1001 1001 1 0 0)
      (by decide!) (by decide!) (by decide!) (by decide!)).1.2.2.1⟩

/-- C2 at an image 400x300, window 100x100, `zoom = 2`, offsets `(30, -40)`. -/
theorem render_clip_source_in_image_witness :
    render_clip (view 400 300 100 100 2 30 (-40)) =
      some { src_x := 160, src_y := 145, src_w := 50, src_h := 50,
             dest_x := 0, dest_y := 0, dest_w := 100, dest_h := 100 } ∧
    (0 ≤ (160 : ℤ) ∧ 0 ≤ (145 : ℤ) ∧ 1 ≤ (50 : ℤ) ∧ 1 ≤ (50 : ℤ) ∧
      (160 : ℤ) + 50 ≤ (view 400 300 100 100 2 30 (-40)).img_width ∧
      (145 : ℤ) + 50 ≤ (view 400 300 100 100 2 30 (-40)).img_height) :=
  ⟨by decide!,
    render_clip_source_in_image (view 400 300 100 100 2 30 (-40))
      { src_x := 160, src_y := 145, src_w := 50, src_h := 50,
        dest_x := 0, dest_y := 0, dest_w := 100, dest_h := 100 }
      (by decide!) (by decide!) (by decide!) (by decide!) (by decide!) (by decide!)⟩

/-- C3 (amended) at the 10x10 image, `zoom = 5`, window 49x49: the destination
`(0, 0, 50, 50)` overshoots the window by one pixel, within the bound. -/
theorem render_clip_dest_near_window_witness :
    render_clip (clamp_offsets (view 10 10 49 49 5 0 0)) =
      some { src_x := 0, src_y := 0, src_w := 10, src_h := 10,
             dest_x := 0, dest_y := 0, dest_w := 50, dest_h := 50 } ∧
    ((0 : ℤ) ≤ 0 ∧ (0 : ℤ) ≤ 0 ∧
      (((0 : ℤ) + 50 : ℤ) : ℚ) < ((view 10 10 49 49 5 0 0).win_width : ℚ) +
        2 * (view 10 10 49 49 5 0 0).zoom + 1 ∧
      (((0 : ℤ) + 50 : ℤ) : ℚ) < ((view 10 10 49 49 5 0 0).win_height : ℚ) +
        2 * (view 10 10 49 49 5 0 0).zoom + 1 ∧
      (0 : ℤ) + 50 ≤ (view 10 10 49 49 5 0 0).win_width + 10 ∧
      (0 : ℤ) + 50 ≤ (view 10 10 49 49 5 0 0).win_height + 10) :=
  ⟨by decide!,
    render_clip_dest_near_window (view 10 10 49 49 5 0 0)
      { src_x := 0, src_y := 0, src_w := 10, src_h := 10,
        dest_x := 0, dest_y := 0, dest_w := 50, dest_h := 50 }
      (by decide!) (by decide!) (by decide!) (by decide!) (by decide!) (by decide!)
      (by decide!)⟩

/-- C8 at the image 400x400 in the window 200x200: the crop is the centred
square `src_x = src_y = 100`, `src_w = src_h = 200`. -/
theorem render_clip_centered_witness :
    render_clip (view 400 400 200 200 1 0 0) =
      some { src_x := (400 - 200) / 2, src_y := (400 - 200) / 2, src_w := 200, src_h := 200,
             dest_x := 0, dest_y := 0, dest_w := 200, dest_h := 200 } ∧
    ((400 - 200) / 2 : ℤ) = 100 :=
  ⟨render_clip_centered (view 400 400 200 200 1 0 0)
    (by decide!) (by decide!) (by decide!) (by decide!) rfl rfl rfl, by decide⟩

/-- C9 at an image 400x300, window 100x100, `zoom = 2`, offsets `(30, -40)`. -/
theorem render_clip_clamps_never_fire_witness :
    render_clip_no_clamps (view 400 300 100 100 2 30 (-40)) =
      render_clip (view 400 300 100 100 2 30 (-40)) :=
  (render_clip_clamps_never_fire (view 400 300 100 100 2 30 (-40))
    (by decide!) (by decide!) (by decide!)).2.2.2.2

/-- C4 (amended) on a stream with wheel and key zoom, a resize to 300x200, a
drag and a reset (fit ratio `1/2`) for a 400x400 image. -/
theorem main_loop_zoom_range_witness :
    zoom_in_range (main_loop (render_to_backbuffer (startup 400 400 1920 1080))
      [.ButtonPress Button4 10 10, .KeyPress .XK_minus, .ConfigureNotify 300 200,
       .ButtonPress Button1 50 50, .MotionNotify 30 80, .KeyPress .XK_r,
       .KeyPress .XK_plus]) :=
  main_loop_zoom_range (render_to_backbuffer (startup 400 400 1920 1080))
    [.ButtonPress Button4 10 10, .KeyPress .XK_minus, .ConfigureNotify 300 200,
     .ButtonPress Button1 50 50, .MotionNotify 30 80, .KeyPress .XK_r,
     .KeyPress .XK_plus]
    (by unfold zoom_in_range; decide!)
    (by simp only [resets_fit]; decide!)

/-- C7 (amended) at a wheel-up event after the first frame of a 400x400 image:
the zoom changes from `1` to `11/10` and the frame gets `needs_rescale = 1`. -/
theorem needs_rescale_follows_zoom_witness :
    (clamp_offsets (wheel_zoom_in (render_to_backbuffer (startup 400 400 1920 1080)))).zoom
      = 11 / 10 ∧
    (clamp_offsets
      (wheel_zoom_in (render_to_backbuffer (startup 400 400 1920 1080)))).needs_rescale = 1 :=
  ⟨by decide!,
    (needs_rescale_follows_zoom (render_to_backbuffer (startup 400 400 1920 1080))
      (.ButtonPress Button4 10 10)).1 _ rfl (by decide!)⟩

end Slim
